import Mathlib

/-!
Shallow embedding of the Requirement Classifier backend
(`Requirement Classifier/backend/app.py`).

The Flask app is modelled as pure functions over an explicit application
state (session, user store, history list).  External collaborators are
modelled as parameters: the opaque classification model is a function
`String → String` (the spec's Classification Adapter applies it element-wise
for batches), the password hashing pair `generate_password_hash` /
`check_password_hash` are function parameters, HTML rendering is a
`Response` constructor carrying the data passed to the template, and the
matplotlib pie chart is a `PieChart` value carrying the data the code feeds
to `ax.pie`.  File persistence is modelled at the parsed-JSON level: the
`json` library's text serialisation is external, so a stored document is a
`JsonVal` AST; `json.dump` of a typed value builds the AST and `json.load`
followed by the program's untyped use of the result is the AST decoding.
-/

namespace RequirementClassifier

/-- One record of `history.json`: a dict
`{'requirement': ..., 'prediction': ...}` with string values. -/
structure HistoryEntry where
  requirement : String
  prediction : String
deriving DecidableEq, Repr

/-- One value of the `users.json` mapping: `{"email": ..., "password": ...}`
where `password` holds the salted hash produced at signup. -/
structure UserRec where
  email : String
  password : String
deriving DecidableEq, Repr

/-- The `users.json` document: a Python dict `username -> UserRec`, modelled
as an association list with the dict's insertion order and unique keys. -/
abbrev Users := List (String × UserRec)

/-- `users.get(username)`: first (unique) binding of the key, if any. -/
def usersGet (us : Users) (k : String) : Option UserRec :=
  match us with
  | [] => none
  | (k', v) :: rest => if k' = k then some v else usersGet rest k

/-- The Flask session: holds at most the `'user'` key. -/
structure Session where
  user : Option String
deriving DecidableEq, Repr

/-- `is_logged_in()`: `'user' in session`. -/
def is_logged_in (s : Session) : Bool := s.user.isSome

/-- The process-wide mutable state the handlers touch: the cookie session and
the in-memory mirrors of `users.json` and `history.json`. -/
structure AppState where
  session : Session
  users : Users
  history : List HistoryEntry
deriving DecidableEq, Repr

/-- Category of a `flash(message, category)` call. -/
inductive FlashCat
  | warning
  | danger
  | success
  | info
deriving DecidableEq, Repr

/-- One queued flash notice. -/
structure Flash where
  message : String
  category : FlashCat
deriving DecidableEq, Repr

/-- The data the `graph` route passes to `ax.pie` (the PNG rendering itself
is matplotlib's). -/
structure PieChart where
  labels : List String
  sizes : List Nat
  colors : List String
deriving DecidableEq, Repr

/-- The HTTP response of a handler, with the data handed to the template. -/
inductive Response
  | redirect (endpoint : String)
  | renderIndex (prediction : Option String)
  | renderUpload (functional : List String) (non_functional : List String)
  | renderGraph (chart : PieChart)
  | renderLogin
  | renderSignup
deriving DecidableEq, Repr

/-- Everything observable about one handler call: the response, the state
afterwards, which stores were written to disk, whether the categorized
artifact CSV was written, the flashes queued, and whether `model.predict`
was invoked. -/
structure HandlerOut where
  response : Response
  state : AppState
  savedHistory : Bool
  savedUsers : Bool
  wroteArtifact : Bool
  flashes : List Flash
  modelCalled : Bool
deriving DecidableEq, Repr

/-- A handler outcome that only responds and flashes, leaving all stores
untouched. -/
def noEffect (st : AppState) (r : Response) (fl : List Flash) : HandlerOut :=
  { response := r, state := st, savedHistory := false, savedUsers := false,
    wroteArtifact := false, flashes := fl, modelCalled := false }

/-- Python's `str.strip()`: drop leading and trailing whitespace. -/
def pyStrip (s : String) : String :=
  ⟨((s.toList.dropWhile Char.isWhitespace).reverse.dropWhile Char.isWhitespace).reverse⟩

/-- `ALLOWED_EXTENSIONS = {'csv', 'xlsx'}`. -/
def ALLOWED_EXTENSIONS : List String := ["csv", "xlsx"]

/-- `filename.rsplit('.', 1)[1]` when a dot is present: the characters after
the last dot. -/
def afterLastDot (filename : String) : String :=
  ⟨(filename.toList.reverse.takeWhile (fun c => c ≠ '.')).reverse⟩

/-- `allowed_file`: `'.' in filename` and the part after the last dot,
lowercased, is an allowed extension. -/
def allowed_file (filename : String) : Bool :=
  filename.toList.contains '.' &&
    ALLOWED_EXTENSIONS.contains ⟨(afterLastDot filename).toList.map Char.toLower⟩

/-- The opaque pre-trained classification model: text in, label out.
`model.predict` on a batch applies it element-wise, order-preserving. -/
def Model := String → String

/-! ### Flat-file JSON store -/

/-- A parsed JSON document (only the shapes the two stores use). -/
inductive JsonVal
  | str (s : String)
  | arr (items : List JsonVal)
  | obj (fields : List (String × JsonVal))

/-- Serialisation of one history entry, as `json.dump` lays it out. -/
def entryToJson (e : HistoryEntry) : JsonVal :=
  .obj [("requirement", .str e.requirement), ("prediction", .str e.prediction)]

/-- The typed reading of one stored history entry. -/
def entryFromJson : JsonVal → Option HistoryEntry
  | .obj [("requirement", .str r), ("prediction", .str p)] => some ⟨r, p⟩
  | _ => none

/-- Typed reading of a list of stored history entries. -/
def entriesFromJson : List JsonVal → Option (List HistoryEntry)
  | [] => some []
  | j :: rest =>
    match entryFromJson j, entriesFromJson rest with
    | some e, some es => some (e :: es)
    | _, _ => none

/-- `save_history`: full overwrite of `history.json` with the serialised
list. The result is the new file content. -/
def save_history (h : List HistoryEntry) : Option JsonVal :=
  some (.arr (h.map entryToJson))

/-- `load_history`: empty list when the file is absent, otherwise the parsed
content read back as a history list (`none` = content of the wrong shape). -/
def load_history : Option JsonVal → Option (List HistoryEntry)
  | none => some []
  | some (.arr items) => entriesFromJson items
  | some _ => none

/-- Serialisation of one user record, as `json.dump` lays it out. -/
def userRecToJson (u : UserRec) : JsonVal :=
  .obj [("email", .str u.email), ("password", .str u.password)]

/-- The typed reading of one stored user record. -/
def userRecFromJson : JsonVal → Option UserRec
  | .obj [("email", .str e), ("password", .str p)] => some ⟨e, p⟩
  | _ => none

/-- Typed reading of the stored username-to-record bindings. -/
def userBindingsFromJson : List (String × JsonVal) → Option Users
  | [] => some []
  | (k, j) :: rest =>
    match userRecFromJson j, userBindingsFromJson rest with
    | some u, some us => some ((k, u) :: us)
    | _, _ => none

/-- `save_users`: full overwrite of `users.json` with the serialised
mapping. The result is the new file content. -/
def save_users (us : Users) : Option JsonVal :=
  some (.obj (us.map (fun b => (b.1, userRecToJson b.2))))

/-- `load_users`: empty mapping when the file is absent, otherwise the
parsed content read back as a user mapping. -/
def load_users : Option JsonVal → Option Users
  | none => some []
  | some (.obj fields) => userBindingsFromJson fields
  | some _ => none

/-! ### Route handlers -/

/-- `/predict` (POST). `requirement_text` is the optional form field. -/
def predict (modelOpt : Option Model) (requirement_text : Option String)
    (st : AppState) : HandlerOut :=
  if is_logged_in st.session = false then
    noEffect st (.redirect "login") [⟨"⚠️ Please login first.", .warning⟩]
  else
    let text := pyStrip (requirement_text.getD "")
    if text.isEmpty then
      noEffect st (.redirect "index") [⟨"⚠️ Please enter a requirement.", .warning⟩]
    else
      match modelOpt with
      | none => noEffect st (.redirect "index") [⟨"❌ Model not loaded.", .danger⟩]
      | some m =>
        let prediction := m text
        { response := .renderIndex (some prediction),
          state := { st with history := st.history ++ [⟨text, prediction⟩] },
          savedHistory := true, savedUsers := false, wroteArtifact := false,
          flashes := [], modelCalled := true }

/-- The table `pandas` parses out of an uploaded spreadsheet: column names
and rows of string cells aligned with them. -/
structure Table where
  columns : List String
  rows : List (List String)
deriving DecidableEq, Repr

/-- `df[c]`: the values of column `c`, in row order. -/
def Table.col (t : Table) (c : String) : List String :=
  match t.columns.findIdx? (fun x => x = c) with
  | none => []
  | some i => t.rows.map (fun r => r.getD i "")

/-- An uploaded file: its submitted filename and what `pandas` makes of its
content (`Except.error` models a parse exception caught by the handler). -/
structure UploadedFile where
  filename : String
  table : Except String Table

/-- `/upload` (POST). -/
def upload (modelOpt : Option Model) (file : Option UploadedFile)
    (st : AppState) : HandlerOut :=
  if is_logged_in st.session = false then
    noEffect st (.redirect "login") [⟨"⚠️ Please login first.", .warning⟩]
  else
    match file with
    | none => noEffect st (.redirect "index") [⟨"⚠️ No file selected.", .warning⟩]
    | some f =>
      if f.filename = "" then
        noEffect st (.redirect "index") [⟨"⚠️ No file selected.", .warning⟩]
      else if allowed_file f.filename = false then
        noEffect st (.redirect "index") [⟨"❌ Unsupported file type.", .danger⟩]
      else
        match f.table with
        | .error e =>
          noEffect st (.redirect "index") [⟨"❌ Error: " ++ e, .danger⟩]
        | .ok df =>
          if df.columns.contains "requirement" = false then
            noEffect st (.redirect "index") [⟨"❌ Column 'requirement' not found.", .danger⟩]
          else
            match modelOpt with
            | none =>
              noEffect st (.redirect "index")
                [⟨"❌ Error: 'NoneType' object has no attribute 'predict'", .danger⟩]
            | some m =>
              let reqs := df.col "requirement"
              let newEntries := reqs.map (fun r => HistoryEntry.mk r (m r))
              { response := .renderUpload
                  (reqs.filter (fun r => m r == "functional"))
                  (reqs.filter (fun r => m r == "non-functional")),
                state := { st with history := st.history ++ newEntries },
                savedHistory := true, savedUsers := false, wroteArtifact := true,
                flashes := [⟨"✅ Successfully categorized!", .success⟩],
                modelCalled := true }

/-- `/delete/<int:index>` (POST). The Flask `int` converter only matches
non-negative integers, so the index is a `Nat`. -/
def delete_history_item (index : Nat) (st : AppState) : HandlerOut :=
  if is_logged_in st.session = false then
    noEffect st (.redirect "login") [⟨"⚠️ Please login first.", .warning⟩]
  else
    if index < st.history.length then
      { response := .redirect "categories",
        state := { st with history := st.history.eraseIdx index },
        savedHistory := true, savedUsers := false, wroteArtifact := false,
        flashes := [⟨"🗑️ Entry deleted.", .info⟩], modelCalled := false }
    else
      noEffect st (.redirect "categories") [⟨"❌ Invalid index.", .danger⟩]

/-- `/graph`. -/
def graph (st : AppState) : HandlerOut :=
  let func_count := st.history.countP (fun h => h.prediction == "functional")
  let nonfunc_count := st.history.countP (fun h => h.prediction == "non-functional")
  let total := func_count + nonfunc_count
  if total = 0 then
    noEffect st (.redirect "index")
      [⟨"⚠️ No data available to generate the graph.", .warning⟩]
  else
    noEffect st
      (.renderGraph ⟨["Functional", "Non-Functional"],
                     [func_count, nonfunc_count],
                     ["#28a745", "#dc3545"]⟩) []

/-- HTTP request method of the dual GET/POST routes. -/
inductive Method
  | get
  | post
deriving DecidableEq, Repr

/-- The login form fields. -/
structure LoginForm where
  username : String
  password : String
deriving DecidableEq, Repr

/-- `/login` (GET/POST). `chk` is `werkzeug`'s `check_password_hash`,
taking the stored hash and the submitted password. -/
def login (chk : String → String → Bool) (method : Method) (form : LoginForm)
    (st : AppState) : HandlerOut :=
  if is_logged_in st.session then
    noEffect st (.redirect "index") []
  else
    match method with
    | .get => noEffect st .renderLogin []
    | .post =>
      let username := pyStrip form.username
      let password := form.password
      match usersGet st.users username with
      | some user =>
        if chk user.password password then
          { response := .redirect "index",
            state := { st with session := ⟨some username⟩ },
            savedHistory := false, savedUsers := false, wroteArtifact := false,
            flashes := [⟨"✅ Welcome back, " ++ username ++ "!", .success⟩],
            modelCalled := false }
        else
          noEffect st .renderLogin [⟨"❌ Invalid username or password.", .danger⟩]
      | none =>
        noEffect st .renderLogin [⟨"❌ Invalid username or password.", .danger⟩]

/-- The signup form fields. -/
structure SignupForm where
  username : String
  email : String
  password : String
  password2 : String
deriving DecidableEq, Repr

/-- `/signup` (GET/POST). `gen` is `werkzeug`'s `generate_password_hash`. -/
def signup (gen : String → String) (method : Method) (form : SignupForm)
    (st : AppState) : HandlerOut :=
  if is_logged_in st.session then
    noEffect st (.redirect "index") []
  else
    match method with
    | .get => noEffect st .renderSignup []
    | .post =>
      let username := pyStrip form.username
      let email := pyStrip form.email
      let password := form.password
      let password2 := form.password2
      if username.isEmpty || email.isEmpty || password.isEmpty || password2.isEmpty then
        noEffect st (.redirect "signup") [⟨"⚠️ All fields are required.", .warning⟩]
      else if password ≠ password2 then
        noEffect st (.redirect "signup") [⟨"❌ Passwords do not match.", .danger⟩]
      else if (usersGet st.users username).isSome then
        noEffect st (.redirect "signup") [⟨"❌ Username already taken.", .danger⟩]
      else
        let hashed_pw := gen password
        { response := .redirect "login",
          state := { st with users := st.users ++ [(username, ⟨email, hashed_pw⟩)] },
          savedHistory := false, savedUsers := true, wroteArtifact := false,
          flashes := [⟨"✅ Signup successful! Please login.", .success⟩],
          modelCalled := false }

/-- `/logout`: `session.pop('user', None)`. -/
def logout (st : AppState) : HandlerOut :=
  noEffect { st with session := ⟨none⟩ } (.redirect "login")
    [⟨"👋 Logged out successfully.", .info⟩]

/-! ### Theorems -/

theorem entryFromJson_toJson (e : HistoryEntry) :
    entryFromJson (entryToJson e) = some e := rfl

theorem entriesFromJson_map (h : List HistoryEntry) :
    entriesFromJson (h.map entryToJson) = some h := by
  induction h with
  | nil => rfl
  | cons e es ih => simp [entriesFromJson, entryFromJson_toJson, ih]

theorem userRecFromJson_toJson (u : UserRec) :
    userRecFromJson (userRecToJson u) = some u := rfl

theorem userBindingsFromJson_map (us : Users) :
    userBindingsFromJson (us.map (fun b => (b.1, userRecToJson b.2))) = some us := by
  induction us with
  | nil => rfl
  | cons b rest ih => simp [userBindingsFromJson, userRecFromJson_toJson, ih]

/-- C6: `save(X); load() == X` for both stores: writing the history list,
resp. the user mapping, and reading the file back yields the value written. -/
theorem store_round_trip (h : List HistoryEntry) (us : Users) :
    load_history (save_history h) = some h ∧ load_users (save_users us) = some us := by
  constructor
  · simp [load_history, save_history, entriesFromJson_map]
  · simp [load_users, save_users, userBindingsFromJson_map]

theorem store_round_trip_witness :
    load_history (save_history [⟨"r", "functional"⟩]) = some [⟨"r", "functional"⟩] ∧
    load_users (save_users [("alice", ⟨"a@b", "h1"⟩)]) = some [("alice", ⟨"a@b", "h1"⟩)] :=
  store_round_trip [⟨"r", "functional"⟩] [("alice", ⟨"a@b", "h1"⟩)]

/-- C5: an authenticated delete at an in-range index removes exactly the
entry at that position and persists; at an out-of-range index the history is
unchanged, nothing is saved, and an error is flashed. -/
theorem delete_history_item_spec (index : Nat) (st : AppState)
    (hlog : is_logged_in st.session = true) :
    (delete_history_item index st).response = Response.redirect "categories" ∧
    (index < st.history.length →
      (delete_history_item index st).state.history
          = st.history.take index ++ st.history.drop (index + 1) ∧
      (delete_history_item index st).savedHistory = true ∧
      (delete_history_item index st).flashes = [⟨"🗑️ Entry deleted.", FlashCat.info⟩]) ∧
    (st.history.length ≤ index →
      (delete_history_item index st).state = st ∧
      (delete_history_item index st).savedHistory = false ∧
      (delete_history_item index st).flashes = [⟨"❌ Invalid index.", FlashCat.danger⟩]) := by
  by_cases hidx : index < st.history.length
  · refine ⟨by simp [delete_history_item, hlog, hidx], ?_, ?_⟩
    · intro _
      simp [delete_history_item, hlog, hidx, List.eraseIdx_eq_take_drop_succ]
    · intro hle; omega
  · refine ⟨by simp [delete_history_item, hlog, hidx, noEffect], ?_, ?_⟩
    · intro hlt; omega
    · intro _
      simp [delete_history_item, hlog, hidx, noEffect]

theorem delete_history_item_spec_witness :
    (delete_history_item 0 ⟨⟨some "u"⟩, [], [⟨"r", "functional"⟩]⟩).response
      = Response.redirect "categories" :=
  (delete_history_item_spec 0 ⟨⟨some "u"⟩, [], [⟨"r", "functional"⟩]⟩ (by decide)).1

/-- C9: while the session already carries a user, login and signup redirect
to the index without reading the form or touching any state. -/
theorem logged_in_login_signup_redirect (chk : String → String → Bool)
    (gen : String → String) (m1 m2 : Method) (lf : LoginForm) (sf : SignupForm)
    (st : AppState) (hlog : is_logged_in st.session = true) :
    login chk m1 lf st = noEffect st (Response.redirect "index") [] ∧
    signup gen m2 sf st = noEffect st (Response.redirect "index") [] := by
  constructor
  · simp [login, hlog]
  · simp [signup, hlog]

theorem logged_in_login_signup_redirect_witness :
    login (fun h p => h == p) .post ⟨"alice", "pw"⟩ ⟨⟨some "bob"⟩, [], []⟩
        = noEffect ⟨⟨some "bob"⟩, [], []⟩ (Response.redirect "index") [] ∧
    signup (fun p => p) .post ⟨"alice", "a@b", "pw", "pw"⟩ ⟨⟨some "bob"⟩, [], []⟩
        = noEffect ⟨⟨some "bob"⟩, [], []⟩ (Response.redirect "index") [] :=
  logged_in_login_signup_redirect (fun h p => h == p) (fun p => p) .post .post
    ⟨"alice", "pw"⟩ ⟨"alice", "a@b", "pw", "pw"⟩ ⟨⟨some "bob"⟩, [], []⟩ (by decide)

/-- C3: a predict request whose text trims to empty is rejected with a
single warning; the model is never called, the history (indeed the whole
state) is unchanged, and nothing is saved. -/
theorem predict_empty_rejected (modelOpt : Option Model) (txt : Option String)
    (st : AppState) (hempty : (pyStrip (txt.getD "")).isEmpty = true) :
    (predict modelOpt txt st).state = st ∧
    (predict modelOpt txt st).savedHistory = false ∧
    (predict modelOpt txt st).modelCalled = false ∧
    (predict modelOpt txt st).flashes.map Flash.category = [FlashCat.warning] := by
  by_cases hlog : is_logged_in st.session
  · simp [predict, hlog, hempty, noEffect, Flash.category]
  · simp at hlog
    simp [predict, hlog, noEffect, Flash.category]

theorem predict_empty_rejected_witness :
    (predict none (some "  ") ⟨⟨some "u"⟩, [], []⟩).state = ⟨⟨some "u"⟩, [], []⟩ ∧
    (predict none (some "  ") ⟨⟨some "u"⟩, [], []⟩).savedHistory = false ∧
    (predict none (some "  ") ⟨⟨some "u"⟩, [], []⟩).modelCalled = false ∧
    (predict none (some "  ") ⟨⟨some "u"⟩, [], []⟩).flashes.map Flash.category
      = [FlashCat.warning] :=
  predict_empty_rejected none (some "  ") ⟨⟨some "u"⟩, [], []⟩ (by decide)

/-- C10: a successful single predict appends exactly one entry at the end of
the history, whose requirement is the trimmed input text, paired with the
model's label for that trimmed text. -/
theorem predict_success_appends (m : Model) (txt : Option String) (st : AppState)
    (hlog : is_logged_in st.session = true)
    (hne : (pyStrip (txt.getD "")).isEmpty = false) :
    (predict (some m) txt st).state.history
        = st.history ++ [⟨pyStrip (txt.getD ""), m (pyStrip (txt.getD ""))⟩] ∧
    (predict (some m) txt st).savedHistory = true ∧
    (predict (some m) txt st).modelCalled = true ∧
    (predict (some m) txt st).response = Response.renderIndex (some (m (pyStrip (txt.getD "")))) ∧
    (predict (some m) txt st).state.session = st.session ∧
    (predict (some m) txt st).state.users = st.users := by
  simp [predict, hlog, hne]

theorem predict_success_appends_witness :
    (predict (some (fun _ => "functional")) (some " a ") ⟨⟨some "u"⟩, [], []⟩).state.history
      = [⟨"a", "functional"⟩] := by
  have h := predict_success_appends (fun _ => "functional") (some " a ")
    ⟨⟨some "u"⟩, [], []⟩ (by decide) (by decide)
  simpa using h.1

/-- C1: on a login POST from an anonymous session, if the stripped username
is in the store and the stored hash checks against the submitted password,
the session's user is set to that username and nothing else changes; for
every other pair the whole state is unchanged and an error is flashed. -/
theorem login_spec (chk : String → String → Bool) (form : LoginForm) (st : AppState)
    (hlog : is_logged_in st.session = false) :
    (∀ u, usersGet st.users (pyStrip form.username) = some u →
        chk u.password form.password = true →
        (login chk .post form st).state.session = ⟨some (pyStrip form.username)⟩ ∧
        (login chk .post form st).state.users = st.users ∧
        (login chk .post form st).state.history = st.history ∧
        (login chk .post form st).response = Response.redirect "index" ∧
        (login chk .post form st).flashes
            = [⟨"✅ Welcome back, " ++ pyStrip form.username ++ "!", FlashCat.success⟩]) ∧
    ((∀ u, usersGet st.users (pyStrip form.username) = some u →
        chk u.password form.password = false) →
      (login chk .post form st).state = st ∧
      (login chk .post form st).savedUsers = false ∧
      (login chk .post form st).flashes
          = [⟨"❌ Invalid username or password.", FlashCat.danger⟩]) := by
  constructor
  · intro u hu hchk
    simp [login, hlog, hu, hchk]
  · intro hinv
    cases hfind : usersGet st.users (pyStrip form.username) with
    | none => simp [login, hlog, hfind, noEffect]
    | some u =>
      have hc := hinv u hfind
      simp [login, hlog, hfind, hc, noEffect]

theorem login_spec_witness :
    (login (fun h p => h == p) .post ⟨"alice", "pw"⟩
        ⟨⟨none⟩, [("alice", ⟨"a@b", "pw"⟩)], []⟩).state.session = ⟨some "alice"⟩ := by
  have h := (login_spec (fun h p => h == p) ⟨"alice", "pw"⟩
      ⟨⟨none⟩, [("alice", ⟨"a@b", "pw"⟩)], []⟩ (by decide)).1
      ⟨"a@b", "pw"⟩ (by decide) (by decide)
  simpa using h.1

/-- C2 as stated is false: the counterexample is a fully valid signup from
an anonymous session, which persists the new user and flashes success yet
leaves the session without a user (the handler redirects to the login page
instead of logging the new user in). -/
theorem signup_success_no_session :
    (signup (fun p => "h" ++ p) .post ⟨"alice", "a@b", "pw", "pw"⟩
        ⟨⟨none⟩, [], []⟩).savedUsers = true ∧
    (signup (fun p => "h" ++ p) .post ⟨"alice", "a@b", "pw", "pw"⟩
        ⟨⟨none⟩, [], []⟩).state.users = [("alice", ⟨"a@b", "hpw"⟩)] ∧
    (signup (fun p => "h" ++ p) .post ⟨"alice", "a@b", "pw", "pw"⟩
        ⟨⟨none⟩, [], []⟩).flashes
        = [⟨"✅ Signup successful! Please login.", FlashCat.success⟩] ∧
    (signup (fun p => "h" ++ p) .post ⟨"alice", "a@b", "pw", "pw"⟩
        ⟨⟨none⟩, [], []⟩).state.session.user = none := by decide

/-- C2 amended: a successful register persists the new user and redirects to
the login page while leaving the session unchanged (signup does not log the
new user in). -/
theorem signup_success_session_unchanged (gen : String → String) (form : SignupForm)
    (st : AppState)
    (hlog : is_logged_in st.session = false)
    (h1 : (pyStrip form.username).isEmpty = false)
    (h2 : (pyStrip form.email).isEmpty = false)
    (h3 : form.password.isEmpty = false)
    (h4 : form.password2.isEmpty = false)
    (h5 : form.password = form.password2)
    (h6 : usersGet st.users (pyStrip form.username) = none) :
    (signup gen .post form st).state.session = st.session ∧
    (signup gen .post form st).state.users
        = st.users ++ [(pyStrip form.username, ⟨pyStrip form.email, gen form.password⟩)] ∧
    (signup gen .post form st).savedUsers = true ∧
    (signup gen .post form st).response = Response.redirect "login" ∧
    (signup gen .post form st).flashes
        = [⟨"✅ Signup successful! Please login.", FlashCat.success⟩] := by
  simp [signup, hlog, h1, h2, h3, h4, h5, h6]

theorem signup_success_session_unchanged_witness :
    (signup (fun p => "h" ++ p) .post ⟨"bob", "b@c", "pw", "pw"⟩
        ⟨⟨none⟩, [], []⟩).state.session = ⟨none⟩ := by
  have h := signup_success_session_unchanged (fun p => "h" ++ p)
    ⟨"bob", "b@c", "pw", "pw"⟩ ⟨⟨none⟩, [], []⟩
    (by decide) (by decide) (by decide) (by decide) (by decide) (by decide) (by decide)
  simpa using h.1

/-- C4: an authenticated upload of a file that parses to a table without a
`requirement` column is rejected with an error flash; the state, the saved
stores and the artifact file are untouched and the model is never called. -/
theorem upload_missing_column_rejected (modelOpt : Option Model) (fname : String)
    (df : Table) (st : AppState)
    (hlog : is_logged_in st.session = true)
    (hfn : fname ≠ "")
    (hext : allowed_file fname = true)
    (hcol : df.columns.contains "requirement" = false) :
    (upload modelOpt (some ⟨fname, .ok df⟩) st).state = st ∧
    (upload modelOpt (some ⟨fname, .ok df⟩) st).savedHistory = false ∧
    (upload modelOpt (some ⟨fname, .ok df⟩) st).wroteArtifact = false ∧
    (upload modelOpt (some ⟨fname, .ok df⟩) st).modelCalled = false ∧
    (upload modelOpt (some ⟨fname, .ok df⟩) st).response = Response.redirect "index" ∧
    (upload modelOpt (some ⟨fname, .ok df⟩) st).flashes
      = [⟨"❌ Column 'requirement' not found.", FlashCat.danger⟩] := by
  have hmem : "requirement" ∉ df.columns := by simpa using hcol
  simp [upload, hlog, hfn, hext, hmem, noEffect]

theorem upload_missing_column_rejected_witness :
    (upload none (some ⟨"data.csv", .ok ⟨["name"], [["x"]]⟩⟩)
        ⟨⟨some "u"⟩, [], []⟩).state = ⟨⟨some "u"⟩, [], []⟩ :=
  (upload_missing_column_rejected none "data.csv" ⟨["name"], [["x"]]⟩
    ⟨⟨some "u"⟩, [], []⟩ (by decide) (by decide) (by decide) (by decide)).1

/-- C7 as stated is false: a non-empty history whose only entry carries a
label other than the two known ones makes `graph` redirect with the warning
even though the history list is not empty. -/
theorem graph_nonempty_fails :
    (⟨⟨none⟩, [], [⟨"x", "other"⟩]⟩ : AppState).history ≠ [] ∧
    (graph ⟨⟨none⟩, [], [⟨"x", "other"⟩]⟩).response = Response.redirect "index" ∧
    (graph ⟨⟨none⟩, [], [⟨"x", "other"⟩]⟩).flashes
      = [⟨"⚠️ No data available to generate the graph.", FlashCat.warning⟩] := by decide

/-- C7 amended: `graph` leaves the state unchanged; it fails (redirects with
the warning) iff the counts of entries labeled functional and non-functional
sum to zero (so in particular on an empty history), and otherwise renders a
pie chart built from exactly those two counts. -/
theorem graph_spec (st : AppState) :
    (graph st).state = st ∧
    (((graph st).response = Response.redirect "index" ∧
      (graph st).flashes
        = [⟨"⚠️ No data available to generate the graph.", FlashCat.warning⟩])
      ↔ st.history.countP (fun h => h.prediction == "functional")
          + st.history.countP (fun h => h.prediction == "non-functional") = 0) ∧
    (st.history.countP (fun h => h.prediction == "functional")
        + st.history.countP (fun h => h.prediction == "non-functional") ≠ 0 →
      (graph st).response = Response.renderGraph
        ⟨["Functional", "Non-Functional"],
         [st.history.countP (fun h => h.prediction == "functional"),
          st.history.countP (fun h => h.prediction == "non-functional")],
         ["#28a745", "#dc3545"]⟩ ∧
      (graph st).flashes = []) := by
  by_cases htot : st.history.countP (fun h => h.prediction == "functional")
      + st.history.countP (fun h => h.prediction == "non-functional") = 0
  · simp [graph, htot, noEffect]
  · simp [graph, htot, noEffect]

theorem graph_spec_witness :
    (graph ⟨⟨none⟩, [], [⟨"r", "functional"⟩]⟩).state = ⟨⟨none⟩, [], [⟨"r", "functional"⟩]⟩ :=
  (graph_spec ⟨⟨none⟩, [], [⟨"r", "functional"⟩]⟩).1

/-- C8: a signup POST from an anonymous session whose stripped username is
already a key of the user store changes nothing (so the existing record is
untouched and nothing is created), persists nothing, redirects back to the
signup page, and flashes a single rejection notice (warning or danger). -/
theorem signup_taken_rejected (gen : String → String) (form : SignupForm) (st : AppState)
    (hlog : is_logged_in st.session = false)
    (htaken : (usersGet st.users (pyStrip form.username)).isSome = true) :
    (signup gen .post form st).state = st ∧
    (signup gen .post form st).savedUsers = false ∧
    (signup gen .post form st).savedHistory = false ∧
    (signup gen .post form st).response = Response.redirect "signup" ∧
    ((signup gen .post form st).flashes.map Flash.category = [FlashCat.warning] ∨
     (signup gen .post form st).flashes.map Flash.category = [FlashCat.danger]) := by
  unfold signup
  simp only [hlog, Bool.false_eq_true, if_false]
  split
  · simp [noEffect, Flash.category]
  · split
    · simp [noEffect, Flash.category]
    · simp [htaken, noEffect, Flash.category]

theorem signup_taken_rejected_witness :
    (signup (fun p => "h" ++ p) .post ⟨"alice", "c@d", "pw", "pw"⟩
        ⟨⟨none⟩, [("alice", ⟨"a@b", "h1"⟩)], []⟩).state
      = ⟨⟨none⟩, [("alice", ⟨"a@b", "h1"⟩)], []⟩ :=
  (signup_taken_rejected (fun p => "h" ++ p) ⟨"alice", "c@d", "pw", "pw"⟩
    ⟨⟨none⟩, [("alice", ⟨"a@b", "h1"⟩)], []⟩ (by decide) (by decide)).1

end RequirementClassifier
